import Mathlib

/-!
Shallow embedding of the remix-project scaffolding plugin (src/index.ts).

The repository consists of a single constructor, `RemixAppProject`, that
resolves an options record against defaults, registers a framework-config
file, git-ignore rules, a conditional credentials file, dependencies and
tasks keyed by a deployment-provider enum, plus two string-templating
file generators (`createRemixConfig` and a static pm2 config).

The constructor's observable effects (registered dependencies, dev
dependencies, tasks, git-ignore patterns, text files, file descriptors
and the PostCss add-on) are modelled as an explicit `ProjectState`
accumulated in source order.  The two external inputs read during
construction — the `REMIX_RUN_LICENSE` environment variable and the
existence of `.npmrc` on disk — are passed as parameters
(`env : Option String`, JavaScript truthiness modelled by `envTruthy`;
`npmrcExists : Bool`).  The constructor's `throw` is modelled by
`Except String`.
-/

/-- `enum RemixDeploymentProvider` from src/index.ts (lines 19-23). -/
inductive RemixDeploymentProvider where
  | EXPRESS
  | VERCEL
deriving DecidableEq, Repr

/-- `TaskCategory` of the host framework (`projen/lib/tasks`): the two
categories used by this repository. -/
inductive ProjenTaskCategory where
  | BUILD
  | RELEASE
deriving DecidableEq, Repr

/-- One task registered through `this.addTask(name, {description, category, exec})`. -/
structure ProjenTask where
  name : String
  description : String
  category : ProjenTaskCategory
  exec : String
deriving DecidableEq, Repr

/-- One `new TextFile(this, path, {committed, readonly, lines})` registration. -/
structure TextFileSpec where
  path : String
  committed : Bool
  readonly : Bool
  lines : List String
deriving DecidableEq, Repr

/-- `RemixAppProjectOptions` (src/index.ts lines 25-34): the eight optional
fields recognized by this system.  The base `TypeScriptProjectOptions`
fields belong to the external host framework and are out of scope.
The misspelled field name `depolymentProvider` is kept from the source. -/
structure RemixAppProjectOptions where
  remixVersion : Option String := none
  depolymentProvider : Option RemixDeploymentProvider := none
  appDirectory : Option String := none
  browserBuildDirectory : Option String := none
  publicPath : Option String := none
  serverBuildDirectory : Option String := none
  devServerPort : Option Nat := none
  tailwind : Option Bool := none
deriving DecidableEq, Repr

/-- The resolved configuration: the eight public readonly fields assigned
in the constructor (src/index.ts lines 61-78). -/
structure ResolvedConfig where
  deploymentProvider : RemixDeploymentProvider
  appDirectory : String
  browserBuildDirectory : String
  publicPath : String
  serverBuildDirectory : String
  devServerPort : Nat
  tailwind : Bool
  remixVersion : String
deriving DecidableEq, Repr

/-- `defaultRemixAppProjectOptions` (src/index.ts lines 50-59). -/
def defaultRemixAppProjectOptions : ResolvedConfig :=
  { remixVersion := "0.13.1"
    deploymentProvider := RemixDeploymentProvider.EXPRESS
    appDirectory := "app"
    browserBuildDirectory := "public/build"
    publicPath := "/build/"
    serverBuildDirectory := "build"
    devServerPort := 8002
    tailwind := false }

/-- Field-by-field resolution `options.x ?? defaultRemixAppProjectOptions.x`
(src/index.ts lines 61-78); `??` returns the default exactly when the
caller value is `null`/`undefined`, modelled by `Option.getD`. -/
def resolveConfig (options : RemixAppProjectOptions) : ResolvedConfig :=
  { deploymentProvider :=
      options.depolymentProvider.getD defaultRemixAppProjectOptions.deploymentProvider
    appDirectory :=
      options.appDirectory.getD defaultRemixAppProjectOptions.appDirectory
    browserBuildDirectory :=
      options.browserBuildDirectory.getD defaultRemixAppProjectOptions.browserBuildDirectory
    publicPath :=
      options.publicPath.getD defaultRemixAppProjectOptions.publicPath
    serverBuildDirectory :=
      options.serverBuildDirectory.getD defaultRemixAppProjectOptions.serverBuildDirectory
    devServerPort :=
      options.devServerPort.getD defaultRemixAppProjectOptions.devServerPort
    tailwind :=
      options.tailwind.getD defaultRemixAppProjectOptions.tailwind
    remixVersion :=
      options.remixVersion.getD defaultRemixAppProjectOptions.remixVersion }

/-- Options object handed to `new RemixConfigFile` (src/index.ts lines 80-86,
structure declared at lines 207-213). -/
structure RemixConfigFileOptions where
  appDirectory : String
  browserBuildDirectory : String
  publicPath : String
  serverBuildDirectory : String
  devServerPort : Nat
deriving DecidableEq, Repr

/-- Observable registrations performed by the `RemixAppProject` constructor,
in source order: runtime dependencies (`addDeps`), development dependencies
(`addDevDeps`), tasks (`addTask`), git-ignore patterns (`gitignore.exclude`),
text files (`new TextFile`), file descriptors by path (`RemixConfigFile`,
`Pm2ConfigFile`) and the PostCss/tailwind add-on. -/
structure ProjectState where
  deps : List String := []
  devDeps : List String := []
  tasks : List ProjenTask := []
  gitignore : List String := []
  textFiles : List TextFileSpec := []
  files : List String := []
  remixConfigOptions : Option RemixConfigFileOptions := none
  postcssTailwind : Bool := false
deriving DecidableEq, Repr

/-- JavaScript truthiness of `process.env.REMIX_RUN_LICENSE`: an environment
variable is truthy iff it is set to a non-empty string. -/
def envTruthy (env : Option String) : Bool :=
  match env with
  | some s => s != ""
  | none => false

/-- `addRemixDeps` (src/index.ts lines 161-171). -/
def remixDeps (remixVersion : String) : List String :=
  [ "@remix-run/cli@" ++ remixVersion
  , "@remix-run/data@" ++ remixVersion
  , "@remix-run/react@" ++ remixVersion
  , "react"
  , "react-dom"
  , "react-router@^6.0.0-beta.0"
  , "react-router-dom@^6.0.0-beta.0" ]

/-- The `.npmrc` text file registered when the environment variable is
truthy (src/index.ts lines 92-99). -/
def npmrcTextFile (token : String) : TextFileSpec :=
  { path := ".npmrc"
    committed := false
    readonly := false
    lines :=
      [ "//npm.remix.run/:_authToken=" ++ token
      , "@remix-run:registry=https://npm.remix.run" ] }

/-- `if (this.tailwind) new PostCss(this, { tailwind: true })`
(src/index.ts lines 157-159). -/
def applyTailwind (cfg : ResolvedConfig) (st : ProjectState) : ProjectState :=
  if cfg.tailwind then { st with postcssTailwind := true } else st

/-- The `RemixAppProject` constructor (src/index.ts lines 47-160), with its
two external reads passed in: `env` is `process.env.REMIX_RUN_LICENSE` and
`npmrcExists` is `fs.existsSync(path.join('.npmrc'))`.  Throwing is
modelled by `Except.error` carrying the thrown message. -/
def remixAppProject (options : RemixAppProjectOptions) (env : Option String)
    (npmrcExists : Bool) : Except String ProjectState :=
  let cfg := resolveConfig options
  -- lines 80-89: remix.config.js descriptor, then the two gitignore calls,
  -- each passing the '# Remix' heading followed by the pattern
  let st0 : ProjectState :=
    { files := ["remix.config.js"]
      remixConfigOptions := some
        { appDirectory := cfg.appDirectory
          browserBuildDirectory := cfg.browserBuildDirectory
          publicPath := cfg.publicPath
          serverBuildDirectory := cfg.serverBuildDirectory
          devServerPort := cfg.devServerPort }
      gitignore :=
        [ "# Remix", "/" ++ cfg.browserBuildDirectory
        , "# Remix", "/" ++ cfg.serverBuildDirectory ] }
  -- lines 91-105: credential bootstrap
  let credStep : Except String ProjectState :=
    if envTruthy env then
      Except.ok { st0 with
        textFiles := st0.textFiles ++ [npmrcTextFile (env.getD "")]
        deps := st0.deps ++ remixDeps cfg.remixVersion }
    else if npmrcExists then
      Except.ok { st0 with deps := st0.deps ++ remixDeps cfg.remixVersion }
    else
      Except.error "Environment variable REMIX_RUN_LICENSE not set"
  match credStep with
  | Except.error e => Except.error e
  | Except.ok st1 =>
    -- line 107
    let st2 := { st1 with devDeps := st1.devDeps ++ ["@types/react", "@types/react-dom"] }
    -- lines 109-132: EXPRESS branch
    let st3 :=
      if cfg.deploymentProvider = RemixDeploymentProvider.EXPRESS then
        { st2 with
          deps := st2.deps ++
            ["@remix-run/express@" ++ cfg.remixVersion, "express", "morgan"]
          devDeps := st2.devDeps ++ ["pm2"]
          files := st2.files ++ ["pm2.config.js"]
          tasks := st2.tasks ++
            [ { name := "build", description := "Builds the project"
                category := ProjenTaskCategory.BUILD, exec := "remix build" }
            , { name := "dev", description := "Start dev server"
                category := ProjenTaskCategory.BUILD, exec := "pm2-dev pm2.config.js" }
            , { name := "start", description := "Start server"
                category := ProjenTaskCategory.RELEASE, exec := "node server.js" } ] }
      else st2
    -- lines 134-155: VERCEL branch
    let st4 :=
      if cfg.deploymentProvider = RemixDeploymentProvider.VERCEL then
        { st3 with
          deps := st3.deps ++
            ["@remix-run/vercel@" ++ cfg.remixVersion, "@vercel/node@1.8.3"]
          devDeps := st3.devDeps ++ ["vercel", "concurrently"]
          tasks := st3.tasks ++
            [ { name := "predeploy", description := "Builds the project"
                category := ProjenTaskCategory.BUILD, exec := "remix build" }
            , { name := "deploy", description := "Deploy to vercel"
                category := ProjenTaskCategory.RELEASE, exec := "vercel" }
            , { name := "start", description := "Start server"
                category := ProjenTaskCategory.RELEASE
                exec := "concurrently \"remix run\" \"vercel dev\"" } ] }
      else st3
    -- lines 157-159
    Except.ok (applyTailwind cfg st4)

/-- Template segment of `createRemixConfig` before the `appDirectory` value
(src/index.ts lines 231-239). -/
def remixConfigSeg0 : String :=
  "\nmodule.exports = \x7b\n  /**\n   * The path to the \"app\" directory, relative to remix.config.js. Defaults to\n   * \"app\". All code in this directory is part of your app and will be compiled\n   * by Remix.\n   *\n   */\n  appDirectory: \x27"

/-- Template segment between the `appDirectory` and `browserBuildDirectory`
values (src/index.ts lines 239-269). -/
def remixConfigSeg1 : String :=
  "\x27,\n\n  /**\n   * A hook for defining custom routes based on your own file conventions. This\n   * is not required, but may be useful if you have custom/advanced routing\n   * requirements.\n   */\n  // routes(defineRoutes) \x7b\n  //   return defineRoutes(route => \x7b\n  //     route(\n  //       // The URL path for this route.\n  //       \"/pages/one\",\n  //       // The path to this route\x27s component file, relative to \"appDirectory\".\n  //       \"pages/one\",\n  //       // Options:\n  //       \x7b\n  //         // The path to this route\x27s data module, relative to \"dataDirectory\".\n  //         loader: \"...\",\n  //         // The path to this route\x27s styles file, relative to \"appDirectory\".\n  //         styles: \"...\"\n  //       \x7d\n  //     );\n  //   \x7d);\n  // \x7d,\n\n  /**\n   * The path to the browser build, relative to remix.config.js. Defaults to\n   * \"public/build\". The browser build contains all public JavaScript and CSS\n   * files that are created when building your routes.\n   */\n  browserBuildDirectory: \x27"

/-- Template segment between the `browserBuildDirectory` and `publicPath`
values (src/index.ts lines 269-275). -/
def remixConfigSeg2 : String :=
  "\x27,\n\n  /**\n   * The URL prefix of the browser build with a trailing slash. Defaults to\n   * \"/build/\".\n   */\n  publicPath: \x27"

/-- Template segment between the `publicPath` and `serverBuildDirectory`
values (src/index.ts lines 275-283). -/
def remixConfigSeg3 : String :=
  "\x27,\n\n  /**\n   * The path to the server build directory, relative to remix.config.js.\n   * Defaults to \"build\". The server build is a collection of JavaScript modules\n   * that are created from building your routes. They are used on the server to\n   * generate HTML.\n   */\n  serverBuildDirectory: \x27"

/-- Template segment between the `serverBuildDirectory` and `devServerPort`
values (src/index.ts lines 283-288). -/
def remixConfigSeg4 : String :=
  "\x27,\n\n  /**\n   * The port to use when running \"remix run\". Defaults to 8002.\n   */\n  devServerPort: "

/-- Template segment after the `devServerPort` value (src/index.ts
lines 288-290); note the trailing space after the closing brace. -/
def remixConfigSeg5 : String :=
  "\n\x7d; \n"

/-- `createRemixConfig` (src/index.ts lines 230-291): the template literal
alternates the six constant segments with the five substituted option
values, each substituted verbatim. -/
def createRemixConfig (options : RemixConfigFileOptions) : String :=
  remixConfigSeg0 ++ options.appDirectory ++
  remixConfigSeg1 ++ options.browserBuildDirectory ++
  remixConfigSeg2 ++ options.publicPath ++
  remixConfigSeg3 ++ options.serverBuildDirectory ++
  remixConfigSeg4 ++ toString options.devServerPort ++
  remixConfigSeg5

/-- A git-ignore line is a comment (heading) when its first character is
`#`; such lines are not ignore entries. -/
def isCommentLine (s : String) : Bool :=
  match s.data with
  | [] => false
  | c :: _ => c = '#'

/-- The record with no optional field explicitly supplied. -/
def emptyOptions : RemixAppProjectOptions := {}

/-- The credentials text files registered by the credential bootstrap:
the `.npmrc` file exactly when the environment variable is truthy. -/
def credFiles (env : Option String) : List TextFileSpec :=
  if envTruthy env then [npmrcTextFile (env.getD "")] else []

/-- The final state of a successful construction; `remixAppProject`
produces it whenever a credential source is available (see
`remixAppProject_eq`). -/
def okState (options : RemixAppProjectOptions) (env : Option String) : ProjectState :=
  let cfg := resolveConfig options
  let st0 : ProjectState :=
    { files := ["remix.config.js"]
      remixConfigOptions := some
        { appDirectory := cfg.appDirectory
          browserBuildDirectory := cfg.browserBuildDirectory
          publicPath := cfg.publicPath
          serverBuildDirectory := cfg.serverBuildDirectory
          devServerPort := cfg.devServerPort }
      gitignore :=
        [ "# Remix", "/" ++ cfg.browserBuildDirectory
        , "# Remix", "/" ++ cfg.serverBuildDirectory ] }
  let st1 := { st0 with
    textFiles := st0.textFiles ++ credFiles env
    deps := st0.deps ++ remixDeps cfg.remixVersion }
  let st2 := { st1 with devDeps := st1.devDeps ++ ["@types/react", "@types/react-dom"] }
  let st3 :=
    if cfg.deploymentProvider = RemixDeploymentProvider.EXPRESS then
      { st2 with
        deps := st2.deps ++
          ["@remix-run/express@" ++ cfg.remixVersion, "express", "morgan"]
        devDeps := st2.devDeps ++ ["pm2"]
        files := st2.files ++ ["pm2.config.js"]
        tasks := st2.tasks ++
          [ { name := "build", description := "Builds the project"
              category := ProjenTaskCategory.BUILD, exec := "remix build" }
          , { name := "dev", description := "Start dev server"
              category := ProjenTaskCategory.BUILD, exec := "pm2-dev pm2.config.js" }
          , { name := "start", description := "Start server"
              category := ProjenTaskCategory.RELEASE, exec := "node server.js" } ] }
    else st2
  let st4 :=
    if cfg.deploymentProvider = RemixDeploymentProvider.VERCEL then
      { st3 with
        deps := st3.deps ++
          ["@remix-run/vercel@" ++ cfg.remixVersion, "@vercel/node@1.8.3"]
        devDeps := st3.devDeps ++ ["vercel", "concurrently"]
        tasks := st3.tasks ++
          [ { name := "predeploy", description := "Builds the project"
              category := ProjenTaskCategory.BUILD, exec := "remix build" }
          , { name := "deploy", description := "Deploy to vercel"
              category := ProjenTaskCategory.RELEASE, exec := "vercel" }
          , { name := "start", description := "Start server"
              category := ProjenTaskCategory.RELEASE
              exec := "concurrently \"remix run\" \"vercel dev\"" } ] }
    else st3
  applyTailwind cfg st4

@[simp]
lemma applyTailwind_deps (c : ResolvedConfig) (s : ProjectState) :
    (applyTailwind c s).deps = s.deps := by
  unfold applyTailwind; split <;> rfl

@[simp]
lemma applyTailwind_devDeps (c : ResolvedConfig) (s : ProjectState) :
    (applyTailwind c s).devDeps = s.devDeps := by
  unfold applyTailwind; split <;> rfl

@[simp]
lemma applyTailwind_tasks (c : ResolvedConfig) (s : ProjectState) :
    (applyTailwind c s).tasks = s.tasks := by
  unfold applyTailwind; split <;> rfl

@[simp]
lemma applyTailwind_gitignore (c : ResolvedConfig) (s : ProjectState) :
    (applyTailwind c s).gitignore = s.gitignore := by
  unfold applyTailwind; split <;> rfl

@[simp]
lemma applyTailwind_textFiles (c : ResolvedConfig) (s : ProjectState) :
    (applyTailwind c s).textFiles = s.textFiles := by
  unfold applyTailwind; split <;> rfl

@[simp]
lemma applyTailwind_files (c : ResolvedConfig) (s : ProjectState) :
    (applyTailwind c s).files = s.files := by
  unfold applyTailwind; split <;> rfl

/-- The constructor succeeds with `okState` exactly when a credential
source (truthy environment variable or on-disk `.npmrc`) is available,
and otherwise throws. -/
lemma remixAppProject_eq (options : RemixAppProjectOptions) (env : Option String)
    (npmrcExists : Bool) :
    remixAppProject options env npmrcExists =
      if envTruthy env || npmrcExists then Except.ok (okState options env)
      else Except.error "Environment variable REMIX_RUN_LICENSE not set" := by
  unfold remixAppProject okState credFiles
  cases h : envTruthy env <;> cases npmrcExists <;> simp [h]

lemma okState_gitignore (o : RemixAppProjectOptions) (env : Option String) :
    (okState o env).gitignore =
      [ "# Remix", "/" ++ (resolveConfig o).browserBuildDirectory
      , "# Remix", "/" ++ (resolveConfig o).serverBuildDirectory ] := by
  unfold okState
  rcases h : (resolveConfig o).deploymentProvider <;> simp [h]

lemma okState_textFiles (o : RemixAppProjectOptions) (env : Option String) :
    (okState o env).textFiles = credFiles env := by
  unfold okState
  rcases h : (resolveConfig o).deploymentProvider <;> simp [h]

lemma okState_files (o : RemixAppProjectOptions) (env : Option String) :
    (okState o env).files =
      "remix.config.js" ::
        (if (resolveConfig o).deploymentProvider = RemixDeploymentProvider.EXPRESS
         then ["pm2.config.js"] else []) := by
  unfold okState
  rcases h : (resolveConfig o).deploymentProvider <;> simp [h]

lemma okState_devDeps (o : RemixAppProjectOptions) (env : Option String) :
    (okState o env).devDeps =
      ["@types/react", "@types/react-dom"] ++
        (if (resolveConfig o).deploymentProvider = RemixDeploymentProvider.EXPRESS
         then ["pm2"] else ["vercel", "concurrently"]) := by
  unfold okState
  rcases h : (resolveConfig o).deploymentProvider <;> simp [h]

lemma okState_deps (o : RemixAppProjectOptions) (env : Option String) :
    (okState o env).deps =
      remixDeps (resolveConfig o).remixVersion ++
        (if (resolveConfig o).deploymentProvider = RemixDeploymentProvider.EXPRESS
         then ["@remix-run/express@" ++ (resolveConfig o).remixVersion, "express", "morgan"]
         else ["@remix-run/vercel@" ++ (resolveConfig o).remixVersion, "@vercel/node@1.8.3"]) := by
  unfold okState
  rcases h : (resolveConfig o).deploymentProvider <;> simp [h]

lemma okState_tasks (o : RemixAppProjectOptions) (env : Option String) :
    (okState o env).tasks =
      if (resolveConfig o).deploymentProvider = RemixDeploymentProvider.EXPRESS
      then
        [ { name := "build", description := "Builds the project"
            category := ProjenTaskCategory.BUILD, exec := "remix build" }
        , { name := "dev", description := "Start dev server"
            category := ProjenTaskCategory.BUILD, exec := "pm2-dev pm2.config.js" }
        , { name := "start", description := "Start server"
            category := ProjenTaskCategory.RELEASE, exec := "node server.js" } ]
      else
        [ { name := "predeploy", description := "Builds the project"
            category := ProjenTaskCategory.BUILD, exec := "remix build" }
        , { name := "deploy", description := "Deploy to vercel"
            category := ProjenTaskCategory.RELEASE, exec := "vercel" }
        , { name := "start", description := "Start server"
            category := ProjenTaskCategory.RELEASE
            exec := "concurrently \"remix run\" \"vercel dev\"" } ] := by
  unfold okState
  rcases h : (resolveConfig o).deploymentProvider <;> simp [h]

lemma append_ne_append (p v q w : String) (i : Nat) (hp : i < p.data.length)
    (hq : i < q.data.length) (hne : p.data[i] ≠ q.data[i]) : p ++ v ≠ q ++ w := by
  intro h
  apply hne
  have hd : p.data ++ v.data = q.data ++ w.data := by
    simpa [String.data_append] using congrArg String.data h
  have hp2 : i < (p.data ++ v.data).length := by
    simp only [List.length_append]; omega
  have hq2 : i < (q.data ++ w.data).length := by
    simp only [List.length_append]; omega
  calc p.data[i] = (p.data ++ v.data)[i] := (List.getElem_append_left hp).symm
    _ = (q.data ++ w.data)[i] := by simp only [hd]
    _ = q.data[i] := List.getElem_append_left hq

lemma append_ne_fixed (p v q : String) (i : Nat) (hp : i < p.data.length)
    (hq : i < q.data.length) (hne : p.data[i] ≠ q.data[i]) : p ++ v ≠ q := by
  have h := append_ne_append p v q "" i hp hq hne
  simpa using h

lemma isCommentLine_slash (d : String) : isCommentLine ("/" ++ d) = false := by
  unfold isCommentLine
  have hd : ("/" ++ d).data = '/' :: d.data := by
    simp [String.data_append]
  rw [hd]
  rfl

lemma isCommentLine_remix_heading : isCommentLine "# Remix" = true := rfl

/-- C1, counterexample: with `REMIX_RUN_LICENSE` set (to the empty string)
and no `.npmrc` on disk, construction still throws, refuting the claim
that the error is thrown only when the variable is unset. -/
theorem construction_error_with_env_set_counterexample :
    (some "" : Option String) ≠ none ∧
    remixAppProject emptyOptions (some "") false =
      Except.error "Environment variable REMIX_RUN_LICENSE not set" := by
  exact ⟨by simp, rfl⟩

/-- C1 (amended): construction throws the MissingCredentials error iff the
`REMIX_RUN_LICENSE` environment variable is unset or set to the empty
string (i.e. not truthy) AND the `.npmrc` credentials file does not exist
on disk; if either credential source is available, construction proceeds
past the credential bootstrap and completes. -/
theorem construction_error_iff_no_credential_source
    (options : RemixAppProjectOptions) (env : Option String) (npmrcExists : Bool) :
    (remixAppProject options env npmrcExists =
        Except.error "Environment variable REMIX_RUN_LICENSE not set" ↔
      (envTruthy env = false ∧ npmrcExists = false)) ∧
    (remixAppProject options env npmrcExists).isOk = (envTruthy env || npmrcExists) := by
  rw [remixAppProject_eq]
  cases h : envTruthy env <;> cases npmrcExists <;> simp [Except.isOk, Except.toBool]

/-- C3: when no optional field is explicitly supplied, the resolved
configuration equals the documented default tuple. -/
theorem resolved_defaults_eq_default_tuple :
    resolveConfig { remixVersion := none, depolymentProvider := none
                    appDirectory := none, browserBuildDirectory := none
                    publicPath := none, serverBuildDirectory := none
                    devServerPort := none, tailwind := none } =
      { remixVersion := "0.13.1"
        deploymentProvider := RemixDeploymentProvider.EXPRESS
        appDirectory := "app"
        browserBuildDirectory := "public/build"
        publicPath := "/build/"
        serverBuildDirectory := "build"
        devServerPort := 8002
        tailwind := false } := rfl

/-- C4: an explicitly supplied option value — including falsy values such
as `devServerPort = 0` or the empty string — overrides that field's
default; only an absent (`none`) value produces the default, and each
field is resolved from its own option field alone, independently of the
rest of the record (the record `o` is arbitrary in every conjunct). -/
theorem explicit_option_overrides_default (o : RemixAppProjectOptions)
    (s t u w x : String) (p : RemixDeploymentProvider) (n : Nat) (b : Bool) :
    ((resolveConfig { o with remixVersion := some s }).remixVersion = s) ∧
    ((resolveConfig { o with depolymentProvider := some p }).deploymentProvider = p) ∧
    ((resolveConfig { o with appDirectory := some t }).appDirectory = t) ∧
    ((resolveConfig { o with browserBuildDirectory := some u }).browserBuildDirectory = u) ∧
    ((resolveConfig { o with publicPath := some w }).publicPath = w) ∧
    ((resolveConfig { o with serverBuildDirectory := some x }).serverBuildDirectory = x) ∧
    ((resolveConfig { o with devServerPort := some n }).devServerPort = n) ∧
    ((resolveConfig { o with tailwind := some b }).tailwind = b) ∧
    ((resolveConfig { o with devServerPort := some 0 }).devServerPort = 0) ∧
    ((resolveConfig { o with appDirectory := some "" }).appDirectory = "") ∧
    ((resolveConfig { o with remixVersion := none }).remixVersion = "0.13.1") ∧
    ((resolveConfig { o with depolymentProvider := none }).deploymentProvider =
      RemixDeploymentProvider.EXPRESS) ∧
    ((resolveConfig { o with appDirectory := none }).appDirectory = "app") ∧
    ((resolveConfig { o with browserBuildDirectory := none }).browserBuildDirectory =
      "public/build") ∧
    ((resolveConfig { o with publicPath := none }).publicPath = "/build/") ∧
    ((resolveConfig { o with serverBuildDirectory := none }).serverBuildDirectory =
      "build") ∧
    ((resolveConfig { o with devServerPort := none }).devServerPort = 8002) ∧
    ((resolveConfig { o with tailwind := none }).tailwind = false) :=
  ⟨rfl, rfl, rfl, rfl, rfl, rfl, rfl, rfl, rfl, rfl, rfl, rfl, rfl, rfl, rfl, rfl, rfl, rfl⟩

/-- C9: an empty-string `REMIX_RUN_LICENSE` is treated as absent by the
credential bootstrap: branch (a) is not taken (no `.npmrc` text file is
registered from the token) and construction falls through to the on-disk
file check — succeeding with no registered text file when `.npmrc`
exists, and throwing when it does not. -/
theorem empty_license_treated_as_absent (options : RemixAppProjectOptions) :
    remixAppProject options (some "") false =
      Except.error "Environment variable REMIX_RUN_LICENSE not set" ∧
    (remixAppProject options (some "") true).map ProjectState.textFiles =
      Except.ok [] := by
  constructor
  · rw [remixAppProject_eq]
    rfl
  · rw [remixAppProject_eq]
    simp [envTruthy, Except.map, okState_textFiles, credFiles]

/-- C2: on a successful construction, the EXPRESS provider registers
exactly the tasks `build` (`remix build`, category build), `dev`
(`pm2-dev pm2.config.js`, category build) and `start` (`node server.js`,
category release), while the VERCEL provider registers exactly
`predeploy` (`remix build`, category build), `deploy` (`vercel`,
category release) and `start` (the framework dev command run
concurrently with the platform local dev command, category release). -/
theorem tasks_registered_by_provider (options : RemixAppProjectOptions)
    (env : Option String) (npmrcExists : Bool) (st : ProjectState)
    (h : remixAppProject options env npmrcExists = Except.ok st) :
    ((resolveConfig options).deploymentProvider = RemixDeploymentProvider.EXPRESS →
      st.tasks =
        [ { name := "build", description := "Builds the project"
            category := ProjenTaskCategory.BUILD, exec := "remix build" }
        , { name := "dev", description := "Start dev server"
            category := ProjenTaskCategory.BUILD, exec := "pm2-dev pm2.config.js" }
        , { name := "start", description := "Start server"
            category := ProjenTaskCategory.RELEASE, exec := "node server.js" } ]) ∧
    ((resolveConfig options).deploymentProvider = RemixDeploymentProvider.VERCEL →
      st.tasks =
        [ { name := "predeploy", description := "Builds the project"
            category := ProjenTaskCategory.BUILD, exec := "remix build" }
        , { name := "deploy", description := "Deploy to vercel"
            category := ProjenTaskCategory.RELEASE, exec := "vercel" }
        , { name := "start", description := "Start server"
            category := ProjenTaskCategory.RELEASE
            exec := "concurrently \"remix run\" \"vercel dev\"" } ]) := by
  rw [remixAppProject_eq] at h
  split at h
  · injection h with h
    subst h
    constructor <;> intro hp <;> rw [okState_tasks, hp] <;> simp
  · exact Except.noConfusion h

/-- Witness for `tasks_registered_by_provider` at a concrete input. -/
theorem tasks_registered_by_provider_witness :
    remixAppProject emptyOptions (some "T") false =
      Except.ok (okState emptyOptions (some "T")) ∧
    (okState emptyOptions (some "T")).tasks =
      [ { name := "build", description := "Builds the project"
          category := ProjenTaskCategory.BUILD, exec := "remix build" }
      , { name := "dev", description := "Start dev server"
          category := ProjenTaskCategory.BUILD, exec := "pm2-dev pm2.config.js" }
      , { name := "start", description := "Start server"
          category := ProjenTaskCategory.RELEASE, exec := "node server.js" } ] :=
  ⟨by rw [remixAppProject_eq]; rfl,
   (tasks_registered_by_provider emptyOptions (some "T") false
      (okState emptyOptions (some "T")) (by rw [remixAppProject_eq]; rfl)).1 rfl⟩

/-- C6: on every successful construction, the non-heading git-ignore
entries registered are exactly `/` followed by the resolved
browser-build directory and `/` followed by the resolved server-build
directory, and nothing else. -/
theorem gitignore_entries_exact (options : RemixAppProjectOptions)
    (env : Option String) (npmrcExists : Bool) (st : ProjectState)
    (h : remixAppProject options env npmrcExists = Except.ok st) :
    st.gitignore.filter (fun e => !(isCommentLine e)) =
      [ "/" ++ (resolveConfig options).browserBuildDirectory
      , "/" ++ (resolveConfig options).serverBuildDirectory ] := by
  rw [remixAppProject_eq] at h
  split at h
  · injection h with h
    subst h
    rw [okState_gitignore]
    simp [List.filter, isCommentLine_slash, isCommentLine_remix_heading]
  · exact Except.noConfusion h

/-- Witness for `gitignore_entries_exact` at a concrete input. -/
theorem gitignore_entries_exact_witness :
    remixAppProject emptyOptions (some "T") false =
      Except.ok (okState emptyOptions (some "T")) ∧
    (okState emptyOptions (some "T")).gitignore.filter (fun e => !(isCommentLine e)) =
      [ "/" ++ (resolveConfig emptyOptions).browserBuildDirectory
      , "/" ++ (resolveConfig emptyOptions).serverBuildDirectory ] :=
  ⟨by rw [remixAppProject_eq]; rfl,
   gitignore_entries_exact emptyOptions (some "T") false
     (okState emptyOptions (some "T")) (by rw [remixAppProject_eq]; rfl)⟩

/-- C10: whenever the credential branch for a truthy `REMIX_RUN_LICENSE`
is taken, the registered non-committed, non-read-only `.npmrc` text file
consists of exactly the two lines
`//npm.remix.run/:_authToken=` followed by the verbatim token and
`@remix-run:registry=https://npm.remix.run`. -/
theorem npmrc_file_contents (options : RemixAppProjectOptions)
    (npmrcExists : Bool) (tok : String) (h : tok ≠ "") :
    (remixAppProject options (some tok) npmrcExists).map ProjectState.textFiles =
      Except.ok
        [ { path := ".npmrc", committed := false, readonly := false
            lines := [ "//npm.remix.run/:_authToken=" ++ tok
                     , "@remix-run:registry=https://npm.remix.run" ] } ] := by
  have ht : envTruthy (some tok) = true := by
    simp only [envTruthy, bne_iff_ne, ne_eq]
    exact h
  rw [remixAppProject_eq]
  simp [ht, Except.map, okState_textFiles, credFiles, npmrcTextFile]

/-- Witness for `npmrc_file_contents` at a concrete input. -/
theorem npmrc_file_contents_witness :
    ("T" : String) ≠ "" ∧
    (remixAppProject emptyOptions (some "T") false).map ProjectState.textFiles =
      Except.ok
        [ { path := ".npmrc", committed := false, readonly := false
            lines := [ "//npm.remix.run/:_authToken=" ++ "T"
                     , "@remix-run:registry=https://npm.remix.run" ] } ] :=
  ⟨by decide, npmrc_file_contents emptyOptions false "T" (by decide)⟩

/-- C8: the credential branch taken when `.npmrc` already exists on disk
(environment variable absent) registers exactly the same runtime
dependency list as the branch taken when `REMIX_RUN_LICENSE` is truthy —
`@remix-run/cli`, `@remix-run/data` and `@remix-run/react` pinned to the
resolved version, `react` and `react-dom`, and `react-router` /
`react-router-dom` at the fixed `^6.0.0-beta.0` range — while
registering no new credentials file. -/
theorem existing_npmrc_branch_same_deps (options : RemixAppProjectOptions)
    (tok : String) (npmrcExists : Bool) (h : tok ≠ "") :
    (remixAppProject options (some tok) npmrcExists).map ProjectState.deps =
      (remixAppProject options none true).map ProjectState.deps ∧
    (remixAppProject options none true).map ProjectState.textFiles = Except.ok [] ∧
    remixDeps (resolveConfig options).remixVersion =
      [ "@remix-run/cli@" ++ (resolveConfig options).remixVersion
      , "@remix-run/data@" ++ (resolveConfig options).remixVersion
      , "@remix-run/react@" ++ (resolveConfig options).remixVersion
      , "react"
      , "react-dom"
      , "react-router@^6.0.0-beta.0"
      , "react-router-dom@^6.0.0-beta.0" ] := by
  have ht : envTruthy (some tok) = true := by
    simp only [envTruthy, bne_iff_ne, ne_eq]
    exact h
  refine ⟨?_, ?_, rfl⟩
  · rw [remixAppProject_eq, remixAppProject_eq]
    simp [ht, envTruthy, Except.map, okState_deps, h]
  · rw [remixAppProject_eq]
    simp [envTruthy, Except.map, okState_textFiles, credFiles]

/-- Witness for `existing_npmrc_branch_same_deps` at a concrete input. -/
theorem existing_npmrc_branch_same_deps_witness :
    ("T" : String) ≠ "" ∧
    ((remixAppProject emptyOptions (some "T") false).map ProjectState.deps =
        (remixAppProject emptyOptions none true).map ProjectState.deps ∧
      (remixAppProject emptyOptions none true).map ProjectState.textFiles =
        Except.ok [] ∧
      remixDeps (resolveConfig emptyOptions).remixVersion =
        [ "@remix-run/cli@" ++ (resolveConfig emptyOptions).remixVersion
        , "@remix-run/data@" ++ (resolveConfig emptyOptions).remixVersion
        , "@remix-run/react@" ++ (resolveConfig emptyOptions).remixVersion
        , "react"
        , "react-dom"
        , "react-router@^6.0.0-beta.0"
        , "react-router-dom@^6.0.0-beta.0" ]) :=
  ⟨by decide, existing_npmrc_branch_same_deps emptyOptions "T" false (by decide)⟩

/-- C5: exactly one provider branch executes: a successful EXPRESS
construction registers none of the VERCEL dependencies
(`@remix-run/vercel`, `@vercel/node`, `vercel`, `concurrently`) nor the
VERCEL tasks (`predeploy`, `deploy`); a successful VERCEL construction
registers none of the EXPRESS dependencies (`@remix-run/express`,
`express`, `morgan`, `pm2`), nor the `pm2.config.js` file, nor the
EXPRESS-only tasks (`build`, `dev`). -/
theorem provider_branch_exclusive (options : RemixAppProjectOptions)
    (env : Option String) (npmrcExists : Bool) (st : ProjectState)
    (h : remixAppProject options env npmrcExists = Except.ok st) :
    ((resolveConfig options).deploymentProvider = RemixDeploymentProvider.EXPRESS →
      ("@remix-run/vercel@" ++ (resolveConfig options).remixVersion) ∉ st.deps ∧
      "@vercel/node@1.8.3" ∉ st.deps ∧
      "vercel" ∉ st.devDeps ∧
      "concurrently" ∉ st.devDeps ∧
      ∀ t ∈ st.tasks, t.name ≠ "predeploy" ∧ t.name ≠ "deploy") ∧
    ((resolveConfig options).deploymentProvider = RemixDeploymentProvider.VERCEL →
      ("@remix-run/express@" ++ (resolveConfig options).remixVersion) ∉ st.deps ∧
      "express" ∉ st.deps ∧
      "morgan" ∉ st.deps ∧
      "pm2" ∉ st.devDeps ∧
      "pm2.config.js" ∉ st.files ∧
      ∀ t ∈ st.tasks, t.name ≠ "build" ∧ t.name ≠ "dev") := by
  rw [remixAppProject_eq] at h
  split at h
  · injection h with h
    subst h
    constructor
    · intro hp
      refine ⟨?_, ?_, ?_, ?_, ?_⟩
      · rw [okState_deps, hp]
        intro hm
        simp only [remixDeps, if_pos, List.mem_append, List.mem_cons,
          List.not_mem_nil, or_false] at hm
        rcases hm with (hm | hm | hm | hm | hm | hm | hm) | (hm | hm | hm)
        · exact append_ne_append "@remix-run/vercel@" _ "@remix-run/cli@" _ 11
            (by decide) (by decide) (by decide) hm
        · exact append_ne_append "@remix-run/vercel@" _ "@remix-run/data@" _ 11
            (by decide) (by decide) (by decide) hm
        · exact append_ne_append "@remix-run/vercel@" _ "@remix-run/react@" _ 11
            (by decide) (by decide) (by decide) hm
        · exact append_ne_fixed "@remix-run/vercel@" _ "react" 0
            (by decide) (by decide) (by decide) hm
        · exact append_ne_fixed "@remix-run/vercel@" _ "react-dom" 0
            (by decide) (by decide) (by decide) hm
        · exact append_ne_fixed "@remix-run/vercel@" _ "react-router@^6.0.0-beta.0" 0
            (by decide) (by decide) (by decide) hm
        · exact append_ne_fixed "@remix-run/vercel@" _ "react-router-dom@^6.0.0-beta.0" 0
            (by decide) (by decide) (by decide) hm
        · exact append_ne_append "@remix-run/vercel@" _ "@remix-run/express@" _ 11
            (by decide) (by decide) (by decide) hm
        · exact append_ne_fixed "@remix-run/vercel@" _ "express" 0
            (by decide) (by decide) (by decide) hm
        · exact append_ne_fixed "@remix-run/vercel@" _ "morgan" 0
            (by decide) (by decide) (by decide) hm
      · rw [okState_deps, hp]
        intro hm
        simp only [remixDeps, if_pos, List.mem_append, List.mem_cons,
          List.not_mem_nil, or_false] at hm
        rcases hm with (hm | hm | hm | hm | hm | hm | hm) | (hm | hm | hm)
        · exact (append_ne_fixed "@remix-run/cli@" _ "@vercel/node@1.8.3" 1
            (by decide) (by decide) (by decide)) hm.symm
        · exact (append_ne_fixed "@remix-run/data@" _ "@vercel/node@1.8.3" 1
            (by decide) (by decide) (by decide)) hm.symm
        · exact (append_ne_fixed "@remix-run/react@" _ "@vercel/node@1.8.3" 1
            (by decide) (by decide) (by decide)) hm.symm
        · exact absurd hm (by decide)
        · exact absurd hm (by decide)
        · exact absurd hm (by decide)
        · exact absurd hm (by decide)
        · exact (append_ne_fixed "@remix-run/express@" _ "@vercel/node@1.8.3" 1
            (by decide) (by decide) (by decide)) hm.symm
        · exact absurd hm (by decide)
        · exact absurd hm (by decide)
      · rw [okState_devDeps, hp]
        decide
      · rw [okState_devDeps, hp]
        decide
      · rw [okState_tasks, hp]
        decide
    · intro hp
      have hne : (resolveConfig options).deploymentProvider ≠
          RemixDeploymentProvider.EXPRESS := by
        rw [hp]
        decide
      refine ⟨?_, ?_, ?_, ?_, ?_, ?_⟩
      · rw [okState_deps]
        rw [if_neg hne]
        intro hm
        simp only [remixDeps, List.mem_append, List.mem_cons,
          List.not_mem_nil, or_false] at hm
        rcases hm with (hm | hm | hm | hm | hm | hm | hm) | (hm | hm)
        · exact append_ne_append "@remix-run/express@" _ "@remix-run/cli@" _ 11
            (by decide) (by decide) (by decide) hm
        · exact append_ne_append "@remix-run/express@" _ "@remix-run/data@" _ 11
            (by decide) (by decide) (by decide) hm
        · exact append_ne_append "@remix-run/express@" _ "@remix-run/react@" _ 11
            (by decide) (by decide) (by decide) hm
        · exact append_ne_fixed "@remix-run/express@" _ "react" 0
            (by decide) (by decide) (by decide) hm
        · exact append_ne_fixed "@remix-run/express@" _ "react-dom" 0
            (by decide) (by decide) (by decide) hm
        · exact append_ne_fixed "@remix-run/express@" _ "react-router@^6.0.0-beta.0" 0
            (by decide) (by decide) (by decide) hm
        · exact append_ne_fixed "@remix-run/express@" _ "react-router-dom@^6.0.0-beta.0" 0
            (by decide) (by decide) (by decide) hm
        · exact append_ne_append "@remix-run/express@" _ "@remix-run/vercel@" _ 11
            (by decide) (by decide) (by decide) hm
        · exact append_ne_fixed "@remix-run/express@" _ "@vercel/node@1.8.3" 1
            (by decide) (by decide) (by decide) hm
      · rw [okState_deps]
        rw [if_neg hne]
        intro hm
        simp only [remixDeps, List.mem_append, List.mem_cons,
          List.not_mem_nil, or_false] at hm
        rcases hm with (hm | hm | hm | hm | hm | hm | hm) | (hm | hm)
        · exact (append_ne_fixed "@remix-run/cli@" _ "express" 0
            (by decide) (by decide) (by decide)) hm.symm
        · exact (append_ne_fixed "@remix-run/data@" _ "express" 0
            (by decide) (by decide) (by decide)) hm.symm
        · exact (append_ne_fixed "@remix-run/react@" _ "express" 0
            (by decide) (by decide) (by decide)) hm.symm
        · exact absurd hm (by decide)
        · exact absurd hm (by decide)
        · exact absurd hm (by decide)
        · exact absurd hm (by decide)
        · exact (append_ne_fixed "@remix-run/vercel@" _ "express" 0
            (by decide) (by decide) (by decide)) hm.symm
        · exact absurd hm (by decide)
      · rw [okState_deps]
        rw [if_neg hne]
        intro hm
        simp only [remixDeps, List.mem_append, List.mem_cons,
          List.not_mem_nil, or_false] at hm
        rcases hm with (hm | hm | hm | hm | hm | hm | hm) | (hm | hm)
        · exact (append_ne_fixed "@remix-run/cli@" _ "morgan" 0
            (by decide) (by decide) (by decide)) hm.symm
        · exact (append_ne_fixed "@remix-run/data@" _ "morgan" 0
            (by decide) (by decide) (by decide)) hm.symm
        · exact (append_ne_fixed "@remix-run/react@" _ "morgan" 0
            (by decide) (by decide) (by decide)) hm.symm
        · exact absurd hm (by decide)
        · exact absurd hm (by decide)
        · exact absurd hm (by decide)
        · exact absurd hm (by decide)
        · exact (append_ne_fixed "@remix-run/vercel@" _ "morgan" 0
            (by decide) (by decide) (by decide)) hm.symm
        · exact absurd hm (by decide)
      · rw [okState_devDeps, if_neg hne]
        decide
      · rw [okState_files, if_neg hne]
        decide
      · rw [okState_tasks, if_neg hne]
        decide
  · exact Except.noConfusion h

/-- Witness for `provider_branch_exclusive` at a concrete input. -/
theorem provider_branch_exclusive_witness :
    remixAppProject emptyOptions (some "T") false =
      Except.ok (okState emptyOptions (some "T")) ∧
    ("@remix-run/vercel@" ++ (resolveConfig emptyOptions).remixVersion) ∉
      (okState emptyOptions (some "T")).deps :=
  ⟨by rw [remixAppProject_eq]; rfl,
   ((provider_branch_exclusive emptyOptions (some "T") false
       (okState emptyOptions (some "T"))
       (by rw [remixAppProject_eq]; rfl)).1 rfl).1⟩

/-- C7: the generated framework-config text contains each of the five
resolved layout values substituted verbatim (as a literal substring
decomposition), and two configurations differing only in
`devServerPort` produce texts that share the same prefix and suffix,
differing only in the substituted port. -/
theorem remix_config_contains_fields_verbatim (o : RemixConfigFileOptions)
    (p1 p2 : Nat) :
    (∃ a b, createRemixConfig o = a ++ o.appDirectory ++ b) ∧
    (∃ a b, createRemixConfig o = a ++ o.browserBuildDirectory ++ b) ∧
    (∃ a b, createRemixConfig o = a ++ o.publicPath ++ b) ∧
    (∃ a b, createRemixConfig o = a ++ o.serverBuildDirectory ++ b) ∧
    (∃ a b, createRemixConfig o = a ++ toString o.devServerPort ++ b) ∧
    (∃ a b, createRemixConfig { o with devServerPort := p1 } = a ++ toString p1 ++ b ∧
            createRemixConfig { o with devServerPort := p2 } = a ++ toString p2 ++ b) := by
  refine ⟨⟨remixConfigSeg0,
            remixConfigSeg1 ++ o.browserBuildDirectory ++ remixConfigSeg2 ++
              o.publicPath ++ remixConfigSeg3 ++ o.serverBuildDirectory ++
              remixConfigSeg4 ++ toString o.devServerPort ++ remixConfigSeg5, ?_⟩,
          ⟨remixConfigSeg0 ++ o.appDirectory ++ remixConfigSeg1,
            remixConfigSeg2 ++ o.publicPath ++ remixConfigSeg3 ++
              o.serverBuildDirectory ++ remixConfigSeg4 ++
              toString o.devServerPort ++ remixConfigSeg5, ?_⟩,
          ⟨remixConfigSeg0 ++ o.appDirectory ++ remixConfigSeg1 ++
              o.browserBuildDirectory ++ remixConfigSeg2,
            remixConfigSeg3 ++ o.serverBuildDirectory ++ remixConfigSeg4 ++
              toString o.devServerPort ++ remixConfigSeg5, ?_⟩,
          ⟨remixConfigSeg0 ++ o.appDirectory ++ remixConfigSeg1 ++
              o.browserBuildDirectory ++ remixConfigSeg2 ++ o.publicPath ++
              remixConfigSeg3,
            remixConfigSeg4 ++ toString o.devServerPort ++ remixConfigSeg5, ?_⟩,
          ⟨remixConfigSeg0 ++ o.appDirectory ++ remixConfigSeg1 ++
              o.browserBuildDirectory ++ remixConfigSeg2 ++ o.publicPath ++
              remixConfigSeg3 ++ o.serverBuildDirectory ++ remixConfigSeg4,
            remixConfigSeg5, ?_⟩,
          ⟨remixConfigSeg0 ++ o.appDirectory ++ remixConfigSeg1 ++
              o.browserBuildDirectory ++ remixConfigSeg2 ++ o.publicPath ++
              remixConfigSeg3 ++ o.serverBuildDirectory ++ remixConfigSeg4,
            remixConfigSeg5, ?_, ?_⟩⟩ <;>
    simp [createRemixConfig, String.append_assoc]
